import Mathlib

set_option autoImplicit false

/-!
Shallow embedding of the repair-shop inventory backend
(src/Backend/main.py and src/FastAPI/main.py).

The two source files are two versions of the same FastAPI application; the
request handlers relevant here (`update_stock`, the partial-update and delete
handlers, `get_fichas`, `sanitize_data`) have the same core logic in both,
except where noted (the Backend variant of `update_ficha` lacks the
empty-update check that the FastAPI variant has, and the Backend variant of
`update_repuesto` adds an allow-list filter over field names).

Modelling choices, all stated here once:
* A database row is an association list from column name to a JSON-like
  value `Jv` (MySQL column identifiers are case-insensitive: the source
  writes `ID`/`id` for the `repuestos` surrogate key and `item` for
  `maquinas`; the model canonicalises them to "id" and "item").
* The two map-valued columns `repuestos_colocados` / `repuestos_faltantes`
  are stored in the source as JSON text and parsed with `json.loads` on
  every read; serialisation of a key→value object round-trips losslessly,
  so the model stores the parsed `Jv` value directly and `json.loads` /
  `json.dumps` are the identity.
* `cursor.fetchone` after `SELECT ... WHERE col = v` is the first row whose
  column equals the value; `UPDATE ... WHERE col = v` touches every row
  whose column equals the value; `cursor.rowcount` is the number of rows
  matched by the WHERE clause.
* An `HTTPException(status, detail)` and a `mysql.connector.Error` that the
  handler maps to a 500 both become `HRes.err status detail`.
* The business values in the placed-parts maps are integers (the `Ficha`
  pydantic model validates `Dict[str, int]`); a non-integer value found
  where Python would then perform arithmetic or `int()` conversion is
  modelled as a server error, a branch no claim depends on.
-/

/-- A JSON-like value as transported by the API: the payloads of the
dynamic-update endpoints, the parsed contents of the serialized
`repuestos_colocados` / `repuestos_faltantes` columns, and the inputs of
`sanitize_data`.  `nan`, `inf` and `ninf` model the Python floats
`float("nan")`, `float("inf")`, `float("-inf")` that `sanitize_data`
(src/Backend/main.py lines 111-122) is meant to replace by `None`. -/
inductive Jv where
  | null
  | int (n : Int)
  | str (s : String)
  | nan
  | inf
  | ninf
  | obj (fields : List (String × Jv))
  | arr (elems : List Jv)

mutual

/-- The function sanitize_data (src/Backend/main.py lines 111-122, identical in
src/FastAPI/main.py lines 64-75): recursively replaces NaN, Infinity and
-Infinity by None inside dicts and lists, and leaves every other value
unchanged.  The dict and list comprehensions of the source are the two
mutually recursive helpers below. -/
def sanitize_data : Jv → Jv
  | .obj fields => .obj (sanitizeFields fields)
  | .arr elems => .arr (sanitizeList elems)
  | .nan => .null
  | .inf => .null
  | .ninf => .null
  | .null => .null
  | .int n => .int n
  | .str s => .str s

/-- The dict comprehension `{k: sanitize_data(v) for k, v in data.items()}`. -/
def sanitizeFields : List (String × Jv) → List (String × Jv)
  | [] => []
  | (k, v) :: rest => (k, sanitize_data v) :: sanitizeFields rest

/-- The list comprehension `[sanitize_data(v) for v in data]`. -/
def sanitizeList : List Jv → List Jv
  | [] => []
  | v :: rest => sanitize_data v :: sanitizeList rest

end

/-- A database row: association list from column name to value. -/
abbrev Row := List (String × Jv)

/-- A database table: list of rows. -/
abbrev Table := List Row

/-- Read one column of a row (`row['col']` on a dictionary cursor row). -/
def getCol (r : Row) (c : String) : Option Jv :=
  (r.find? fun kv => kv.1 == c).map (·.2)

/-- The assignment `SET c = v` applied to one row: every binding of column `c` is
overwritten, every other column is untouched. -/
def setCol (r : Row) (c : String) (v : Jv) : Row :=
  r.map fun kv => (kv.1, if kv.1 == c then v else kv.2)

/-- Does column `c` of row `r` hold the integer `n`?  Models the SQL
predicate `c = %s` for an integer parameter against an integer column. -/
def rowIntEq (r : Row) (c : String) (n : Int) : Bool :=
  match getCol r c with
  | some (.int m) => m == n
  | _ => false

/-- Does column `c` of row `r` hold the string `s`?  Models the SQL
predicate `c = %s` for a string parameter against a string column. -/
def rowStrEq (r : Row) (c : String) (s : String) : Bool :=
  match getCol r c with
  | some (.str t) => t == s
  | _ => false

/-- The two tables of the store: `repuestos` (parts) and `maquinas`
(repair jobs / fichas). -/
structure DB where
  repuestos : Table
  maquinas : Table

/-- Outcome of a handler: a successful JSON body of type `α`, or an
`HTTPException`-style error with an HTTP status code and a detail string. -/
inductive HRes (α : Type) where
  | ok (v : α)
  | err (status : Nat) (detail : String)
deriving DecidableEq, Repr

/-- The statement `UPDATE repuestos SET cantidad_disponible = %s WHERE codigo = %s`
(src/Backend/main.py line 417, src/FastAPI/main.py line 389). -/
def writeStock (db : DB) (cod : String) (new_stock : Int) : DB :=
  { db with
    repuestos := db.repuestos.map fun r =>
      if rowStrEq r "codigo" cod then setCol r "cantidad_disponible" (.int new_stock) else r }

/-- The stock-reconciliation handler `update_stock`
(src/Backend/main.py lines 390-426; src/FastAPI/main.py lines 352-399 is
the same logic, with `action` an unrestricted string there and a
`Literal["increase", "decrease"]` in the Backend file — the model takes the
unrestricted string, which subsumes both).  Returns the store after the
call together with the HTTP outcome; `new_stock` is the `ok` payload. -/
def update_stock (db : DB) (ficha_id : Int) (repuesto_codigo : String) (action : String) :
    DB × HRes Int :=
  match db.maquinas.find? (fun r => rowIntEq r "item" ficha_id),
        db.repuestos.find? (fun r => rowStrEq r "codigo" repuesto_codigo) with
  | some ficha, some repuesto =>
    match getCol ficha "repuestos_colocados" with
    | some (.obj repuestos_colocados) =>
      match repuestos_colocados.find? (fun kv => kv.1 == repuesto_codigo) with
      | none => (db, .err 400 "Repuesto not found in repuestos_colocados")
      | some kv =>
        match kv.2, getCol repuesto "cantidad_disponible" with
        | .int cantidad, some (.int stock_actual) =>
          if action == "decrease" then
            if stock_actual - cantidad < 0 then
              (db, .err 400 "Not enough stock")
            else
              (writeStock db repuesto_codigo (stock_actual - cantidad),
               .ok (stock_actual - cantidad))
          else if action == "increase" then
            (writeStock db repuesto_codigo (stock_actual + cantidad),
             .ok (stock_actual + cantidad))
          else
            (db, .err 400 "Invalid action")
        -- a non-integer quantity or stock value would make the Python
        -- arithmetic / int() conversion fail; outside the modelled domain
        | _, _ => (db, .err 500 "type error")
    -- the stored column is always a serialized object; a malformed one
    -- would make json.loads fail; outside the modelled domain
    | _ => (db, .err 500 "json loads failure")
  | _, _ => (db, .err 404 "Ficha or Repuesto not found")

/-- The allow-list of the Backend `update_repuesto` handler
(src/Backend/main.py line 176). -/
def allowed_fields : List String :=
  ["codigo", "descripción", "cantidad_disponible", "nº_estantería",
   "nº_estante", "nº_BIN", "posición_BIN"]

/-- The columns of the `maquinas` table, as created by the INSERT of
`create_ficha` (src/Backend/main.py lines 279-281) plus the surrogate key
`item` used by update, delete and reconciliation. -/
def maquinas_columns : List String :=
  ["item", "numero_ficha", "cliente", "serie", "modelo", "nº_bat",
   "nº_cargador", "diagnóstico", "tipo", "observaciones", "reparación",
   "repuestos_colocados", "repuestos_faltantes", "nº_ciclos", "estado"]

/-- Apply the SET clause `k1 = v1, k2 = v2, ...` to one row, left to
right. -/
def applyFields (r : Row) (payload : List (String × Jv)) : Row :=
  payload.foldl (fun acc kv => setCol acc kv.1 kv.2) r

/-- The statement `UPDATE tbl SET ... WHERE keyCol = id` followed by reading
`cursor.rowcount`: the updated table, and the number of rows matched by
the WHERE clause. -/
def runUpdate (tbl : Table) (keyCol : String) (id : Int)
    (payload : List (String × Jv)) : Table × Nat :=
  (tbl.map fun r => if rowIntEq r keyCol id then applyFields r payload else r,
   (tbl.filter fun r => rowIntEq r keyCol id).length)

/-- The Backend partial-update handler for parts, `update_repuesto`
(src/Backend/main.py lines 168-194).  The handler keeps only allow-listed
payload keys for the SET clause (line 177) and rejects an empty clause
with 400 (lines 178-179), but then binds every payload value, filtered or
not, as a statement parameter (line 181 `values = list(repuesto.values())`):
when the payload also holds a non-allowed key, placeholder and parameter
counts disagree, mysql-connector raises, and the handler's `except Error`
maps that to a 500.  When every key is allowed, names and values line up
in payload order and the update is applied to the rows matched by
`WHERE ID = %s`; zero matched rows is reported as 404. -/
def backend_update_repuesto (db : DB) (id : Int) (payload : List (String × Jv)) :
    DB × HRes String :=
  if (payload.filter fun kv => allowed_fields.contains kv.1).isEmpty then
    (db, .err 400 "No valid fields to update")
  else if (payload.filter fun kv => allowed_fields.contains kv.1).length ≠
      payload.length then
    (db, .err 500 "Database error: parameter count mismatch")
  else if (runUpdate db.repuestos "id" id payload).2 == 0 then
    ({ db with repuestos := (runUpdate db.repuestos "id" id payload).1 },
     .err 404 "Repuesto no encontrado")
  else
    ({ db with repuestos := (runUpdate db.repuestos "id" id payload).1 },
     .ok "Repuesto actualizado exitosamente")

/-- The Backend partial-update handler for fichas, `update_ficha`
(src/Backend/main.py lines 297-327).  Every payload key goes into the SET
clause with no allow-list and no emptiness check: an empty payload yields
the malformed statement `UPDATE maquinas SET  WHERE item = %s`, a SQL
syntax error the handler maps to 500; a payload key that is not a column
of `maquinas` is interpolated into the statement and rejected by the store
as an unknown column, also a 500.  `json.dumps` on the two map-valued
fields (lines 308-310) is the identity in this model, since rows store the
parsed value.  Zero matched rows is reported as 404. -/
def backend_update_ficha (db : DB) (id : Int) (payload : List (String × Jv)) :
    DB × HRes String :=
  if payload.isEmpty then
    (db, .err 500 "Database error: SQL syntax error")
  else if ¬ (payload.all fun kv => maquinas_columns.contains kv.1) then
    (db, .err 500 "Database error: unknown column")
  else if (runUpdate db.maquinas "item" id payload).2 == 0 then
    ({ db with maquinas := (runUpdate db.maquinas "item" id payload).1 },
     .err 404 "Ficha no encontrada")
  else
    ({ db with maquinas := (runUpdate db.maquinas "item" id payload).1 },
     .ok "Ficha actualizada exitosamente")

/-- The FastAPI variant of the ficha partial-update handler
(src/FastAPI/main.py lines 255-291): same as the Backend variant, except
that an empty payload IS rejected with `400 "No fields to update"`
(lines 274-275) before the statement is built. -/
def fastapi_update_ficha (db : DB) (id : Int) (payload : List (String × Jv)) :
    DB × HRes String :=
  if payload.isEmpty then
    (db, .err 400 "No fields to update")
  else if ¬ (payload.all fun kv => maquinas_columns.contains kv.1) then
    (db, .err 500 "Database error: unknown column")
  else if (runUpdate db.maquinas "item" id payload).2 == 0 then
    ({ db with maquinas := (runUpdate db.maquinas "item" id payload).1 },
     .err 404 "Ficha no encontrada")
  else
    ({ db with maquinas := (runUpdate db.maquinas "item" id payload).1 },
     .ok "Ficha actualizada exitosamente")

/-- The handler delete_repuesto (src/Backend/main.py lines 196-216):
`DELETE FROM repuestos WHERE id = %s`; zero affected rows is 404. -/
def backend_delete_repuesto (db : DB) (id : Int) : DB × HRes String :=
  if (db.repuestos.filter fun r => rowIntEq r "id" id).length == 0 then
    ({ db with repuestos := db.repuestos.filter fun r => !(rowIntEq r "id" id) },
     .err 404 "Repuesto no encontrado")
  else
    ({ db with repuestos := db.repuestos.filter fun r => !(rowIntEq r "id" id) },
     .ok "Repuesto eliminado exitosamente")

/-- The handler delete_ficha (src/Backend/main.py lines 329-349):
`DELETE FROM maquinas WHERE item = %s`; zero affected rows is 404. -/
def backend_delete_ficha (db : DB) (id : Int) : DB × HRes String :=
  if (db.maquinas.filter fun r => rowIntEq r "item" id).length == 0 then
    ({ db with maquinas := db.maquinas.filter fun r => !(rowIntEq r "item" id) },
     .err 404 "Ficha no encontrada")
  else
    ({ db with maquinas := db.maquinas.filter fun r => !(rowIntEq r "item" id) },
     .ok "Ficha eliminada exitosamente")

/-- The sort key of `ORDER BY numero_ficha ASC`. -/
def numeroFichaKey (r : Row) : Int :=
  match getCol r "numero_ficha" with
  | some (.int n) => n
  | _ => 0

/-- Stable insertion into a list already sorted by `numeroFichaKey`. -/
def insertByNumero (r : Row) : List Row → List Row
  | [] => [r]
  | x :: xs =>
    if numeroFichaKey x ≤ numeroFichaKey r then x :: insertByNumero r xs
    else r :: x :: xs

/-- The clause `ORDER BY numero_ficha ASC`, modelled as insertion sort. -/
def orderByNumeroFicha : List Row → List Row
  | [] => []
  | x :: xs => insertByNumero x (orderByNumeroFicha xs)

/-- The handler get_fichas (src/Backend/main.py lines 249-269, identical in
src/FastAPI/main.py lines 208-227): `SELECT * FROM maquinas ORDER BY
numero_ficha ASC`, then `json.loads` applied to the two serialized map
columns of every row (the identity in this model).  The rows are returned
exactly as stored: `sanitize_data` is defined in both source files but is
never invoked on this path — nor anywhere else in either file. -/
def get_fichas (db : DB) : List Row :=
  orderByNumeroFicha db.maquinas

/-! ### Concrete rows and stores used by witnesses and counterexamples -/

/-- A part P1 with 10 units in stock. -/
def rowP1 : Row :=
  [("id", .int 1), ("codigo", .str "P1"), ("descripción", .str "widget"),
   ("cantidad_disponible", .int 10), ("nº_estantería", .str "a"),
   ("nº_estante", .str "b"), ("nº_BIN", .str "c"), ("posición_BIN", .str "d")]

/-- A ficha (item 1) that recorded 5 placed units of P1. -/
def rowF1 : Row :=
  [("item", .int 1), ("numero_ficha", .int 7), ("cliente", .str "cli"),
   ("repuestos_colocados", .obj [("P1", .int 5)]),
   ("repuestos_faltantes", .obj [])]

/-- A store with part `rowP1` and ficha `rowF1`. -/
def db0 : DB := ⟨[rowP1], [rowF1]⟩

/-- A part P1 with zero stock. -/
def rowP1zero : Row :=
  [("id", .int 1), ("codigo", .str "P1"), ("descripción", .str "widget"),
   ("cantidad_disponible", .int 0), ("nº_estantería", .str "a"),
   ("nº_estante", .str "b"), ("nº_BIN", .str "c"), ("posición_BIN", .str "d")]

/-- A ficha that recorded a NEGATIVE placed quantity for P1 — reachable
through the API: `create_ficha` validates `repuestos_colocados` as
`Dict[str, int]`, which admits negative integers. -/
def rowFneg : Row :=
  [("item", .int 1), ("numero_ficha", .int 7), ("cliente", .str "cli"),
   ("repuestos_colocados", .obj [("P1", .int (-5))]),
   ("repuestos_faltantes", .obj [])]

/-- A store pairing zero stock with a negative recorded quantity. -/
def dbNeg : DB := ⟨[rowP1zero], [rowFneg]⟩

/-- A stored ficha whose serialized `repuestos_colocados` carries a NaN —
reachable through the API: `update_ficha` accepts `Dict[str, Any]` and
`json.dumps` serializes `float("nan")` as the token `NaN`, which
`json.loads` parses back to a NaN float. -/
def rowNan : Row :=
  [("item", .int 1), ("numero_ficha", .int 7), ("cliente", .str "cli"),
   ("repuestos_colocados", .obj [("P1", Jv.nan)]),
   ("repuestos_faltantes", .obj [])]

/-- A store holding only `rowNan`. -/
def dbNan : DB := ⟨[], [rowNan]⟩

/-- A part P2 that no ficha has recorded as placed. -/
def rowP2 : Row :=
  [("id", .int 2), ("codigo", .str "P2"), ("descripción", .str "gadget"),
   ("cantidad_disponible", .int 3), ("nº_estantería", .str "a"),
   ("nº_estante", .str "b"), ("nº_BIN", .str "c"), ("posición_BIN", .str "d")]

/-- A store with no row of id / item 99 anywhere. -/
def db8 : DB := ⟨[rowP1], [rowF1]⟩

/-! ### Helper lemmas about rows, tables and the write of `update_stock` -/

theorem getCol_setCol_ne (r : Row) {c c2 : String} (v : Jv) (h : c2 ≠ c) :
    getCol (setCol r c v) c2 = getCol r c2 := by
  induction r with
  | nil => rfl
  | cons kv rest ih =>
    obtain ⟨k, w⟩ := kv
    by_cases h2 : (k == c2) = true
    · have hk2 : k = c2 := by simpa using h2
      have hkc : (k == c) = false := by
        simp only [beq_eq_false_iff_ne]
        exact hk2 ▸ h
      simp only [getCol, setCol, List.map_cons, List.find?_cons, h2, hkc]
      simp [hkc]
    · simp only [Bool.not_eq_true] at h2
      simp only [getCol, setCol, List.map_cons, List.find?_cons, h2] at ih ⊢
      exact ih

theorem getCol_setCol_self (r : Row) {c : String} {w : Jv} (v : Jv)
    (h : getCol r c = some w) : getCol (setCol r c v) c = some v := by
  induction r with
  | nil => simp [getCol] at h
  | cons kv rest ih =>
    obtain ⟨k, x⟩ := kv
    by_cases h2 : (k == c) = true
    · simp [getCol, setCol, List.find?_cons, h2]
      have hk : k = c := by simpa using h2
      exact fun hkc => absurd hk hkc
    · simp only [Bool.not_eq_true] at h2
      simp only [getCol, setCol, List.map_cons, List.find?_cons, h2] at h ih ⊢
      exact ih h

theorem find?_map_of_pred_inv {α : Type} (g : α → α) (p : α → Bool)
    (hg : ∀ a, p (g a) = p a) (l : List α) :
    (l.map g).find? p = (l.find? p).map g := by
  induction l with
  | nil => rfl
  | cons a l ih =>
    by_cases hp : p a = true
    · simp [List.find?_cons, hg, hp]
    · simp only [Bool.not_eq_true] at hp
      simp [List.find?_cons, hg, hp, ih]

theorem rowStrEq_setCol_cantidad (r : Row) (cod : String) (v : Jv) :
    rowStrEq (setCol r "cantidad_disponible" v) "codigo" cod =
      rowStrEq r "codigo" cod := by
  unfold rowStrEq
  rw [getCol_setCol_ne r v (by decide)]

theorem writeStock_maquinas (db : DB) (cod : String) (v : Int) :
    (writeStock db cod v).maquinas = db.maquinas := rfl

theorem writeStock_find (db : DB) {cod : String} {repuesto : Row}
    (hr : db.repuestos.find? (fun r => rowStrEq r "codigo" cod) = some repuesto)
    (v : Int) :
    (writeStock db cod v).repuestos.find? (fun r => rowStrEq r "codigo" cod) =
      some (setCol repuesto "cantidad_disponible" (.int v)) := by
  have hpred : rowStrEq repuesto "codigo" cod = true := by
    simpa using List.find?_some hr
  have hg : ∀ a : Row,
      rowStrEq (if rowStrEq a "codigo" cod then
        setCol a "cantidad_disponible" (.int v) else a) "codigo" cod =
        rowStrEq a "codigo" cod := by
    intro a
    by_cases h : rowStrEq a "codigo" cod = true
    · simp [h, rowStrEq_setCol_cantidad]
    · simp only [Bool.not_eq_true] at h
      simp [h]
  show (db.repuestos.map fun r =>
      if rowStrEq r "codigo" cod then
        setCol r "cantidad_disponible" (Jv.int v) else r).find?
      (fun r => rowStrEq r "codigo" cod) =
    some (setCol repuesto "cantidad_disponible" (Jv.int v))
  rw [find?_map_of_pred_inv _ _ hg, hr]
  simp [hpred]

theorem update_stock_spec (db : DB) (fid : Int) (cod act : String)
    {ficha repuesto : Row} {placed : List (String × Jv)} {k : String}
    {q cur : Int}
    (hf : db.maquinas.find? (fun r => rowIntEq r "item" fid) = some ficha)
    (hr : db.repuestos.find? (fun r => rowStrEq r "codigo" cod) = some repuesto)
    (hp : getCol ficha "repuestos_colocados" = some (.obj placed))
    (hq : placed.find? (fun kv => kv.1 == cod) = some (k, Jv.int q))
    (hc : getCol repuesto "cantidad_disponible" = some (.int cur)) :
    update_stock db fid cod act =
      if act == "decrease" then
        if cur - q < 0 then (db, .err 400 "Not enough stock")
        else (writeStock db cod (cur - q), .ok (cur - q))
      else if act == "increase" then
        (writeStock db cod (cur + q), .ok (cur + q))
      else (db, .err 400 "Invalid action") := by
  simp only [update_stock, hf, hr, hp, hq, hc]

/-! ### Claim theorems: stock reconciliation -/

/-- C1: for every `update_stock` call where the repair job and the part both
exist, the part code is a key of the job's `placed_parts` mapping, the action
is "decrease", and current `available_quantity` minus the recorded quantity
is non-negative, the operation persists `new = current - recorded` as the
part's stored `cantidad_disponible` and returns that value as `new_stock`. -/
theorem update_stock_decrease_persists (db : DB) (fid : Int) (cod : String)
    {ficha repuesto : Row} {placed : List (String × Jv)} {k : String}
    {q cur : Int}
    (hf : db.maquinas.find? (fun r => rowIntEq r "item" fid) = some ficha)
    (hr : db.repuestos.find? (fun r => rowStrEq r "codigo" cod) = some repuesto)
    (hp : getCol ficha "repuestos_colocados" = some (.obj placed))
    (hq : placed.find? (fun kv => kv.1 == cod) = some (k, Jv.int q))
    (hc : getCol repuesto "cantidad_disponible" = some (.int cur))
    (hge : 0 ≤ cur - q) :
    (update_stock db fid cod "decrease").2 = .ok (cur - q) ∧
    (update_stock db fid cod "decrease").1.repuestos.find?
        (fun r => rowStrEq r "codigo" cod) =
      some (setCol repuesto "cantidad_disponible" (.int (cur - q))) ∧
    getCol (setCol repuesto "cantidad_disponible" (.int (cur - q)))
        "cantidad_disponible" = some (.int (cur - q)) := by
  have hspec := update_stock_spec db fid cod "decrease" hf hr hp hq hc
  rw [if_pos (by simp), if_neg (by omega)] at hspec
  refine ⟨by rw [hspec], ?_, getCol_setCol_self repuesto _ hc⟩
  rw [hspec]
  exact writeStock_find db hr (cur - q)

/-- Witness for C1: on the sample store (part P1 with 10 units, job 1 with
`placed_parts = {"P1": 5}`), a decrease returns `new_stock = 5` and the row
read back after the call holds 5. -/
theorem update_stock_decrease_persists_witness :
    (update_stock db0 1 "P1" "decrease").2 = .ok 5 ∧
    (update_stock db0 1 "P1" "decrease").1.repuestos.find?
        (fun r => rowStrEq r "codigo" "P1") =
      some (setCol rowP1 "cantidad_disponible" (.int 5)) ∧
    getCol (setCol rowP1 "cantidad_disponible" (.int 5))
        "cantidad_disponible" = some (.int 5) :=
  @update_stock_decrease_persists db0 1 "P1" rowF1 rowP1 [("P1", Jv.int 5)]
    "P1" 5 10 rfl rfl rfl rfl rfl (by omega)

/-- C2: a decrease whose result would be negative is rejected with
`400 "Not enough stock"` and the store is left unchanged (no write). -/
theorem update_stock_decrease_insufficient (db : DB) (fid : Int) (cod : String)
    {ficha repuesto : Row} {placed : List (String × Jv)} {k : String}
    {q cur : Int}
    (hf : db.maquinas.find? (fun r => rowIntEq r "item" fid) = some ficha)
    (hr : db.repuestos.find? (fun r => rowStrEq r "codigo" cod) = some repuesto)
    (hp : getCol ficha "repuestos_colocados" = some (.obj placed))
    (hq : placed.find? (fun kv => kv.1 == cod) = some (k, Jv.int q))
    (hc : getCol repuesto "cantidad_disponible" = some (.int cur))
    (hlt : cur - q < 0) :
    update_stock db fid cod "decrease" = (db, .err 400 "Not enough stock") := by
  have hspec := update_stock_spec db fid cod "decrease" hf hr hp hq hc
  rwa [if_pos (by simp), if_pos hlt] at hspec

/-- Witness for C2: from 0 units of P1 a third decrease of 5 is rejected
with 400 and the whole store is returned unchanged. -/
theorem update_stock_decrease_insufficient_witness :
    update_stock ⟨[rowP1zero], [rowF1]⟩ 1 "P1" "decrease" =
      (⟨[rowP1zero], [rowF1]⟩, .err 400 "Not enough stock") :=
  @update_stock_decrease_insufficient ⟨[rowP1zero], [rowF1]⟩ 1 "P1" rowF1
    rowP1zero [("P1", Jv.int 5)] "P1" 5 0 rfl rfl rfl rfl rfl (by omega)

/-- C3: under the same preconditions an "increase" sets the new value to
`current + recorded` unconditionally, and it is the exact inverse of a
successful decrease: a decrease followed by an increase (the stored
`placed_parts` being untouched by both calls) restores the part's original
`cantidad_disponible`. -/
theorem update_stock_increase_inverse (db : DB) (fid : Int) (cod : String)
    {ficha repuesto : Row} {placed : List (String × Jv)} {k : String}
    {q cur : Int}
    (hf : db.maquinas.find? (fun r => rowIntEq r "item" fid) = some ficha)
    (hr : db.repuestos.find? (fun r => rowStrEq r "codigo" cod) = some repuesto)
    (hp : getCol ficha "repuestos_colocados" = some (.obj placed))
    (hq : placed.find? (fun kv => kv.1 == cod) = some (k, Jv.int q))
    (hc : getCol repuesto "cantidad_disponible" = some (.int cur)) :
    update_stock db fid cod "increase" =
      (writeStock db cod (cur + q), .ok (cur + q)) ∧
    (0 ≤ cur - q →
      (update_stock db fid cod "decrease").2 = .ok (cur - q) ∧
      (update_stock (update_stock db fid cod "decrease").1 fid cod
          "increase").2 = .ok cur ∧
      (update_stock (update_stock db fid cod "decrease").1 fid cod
          "increase").1.repuestos.find? (fun r => rowStrEq r "codigo" cod) =
        some (setCol (setCol repuesto "cantidad_disponible" (.int (cur - q)))
          "cantidad_disponible" (.int cur)) ∧
      getCol (setCol (setCol repuesto "cantidad_disponible" (.int (cur - q)))
          "cantidad_disponible" (.int cur)) "cantidad_disponible" =
        some (.int cur)) := by
  have hinc := update_stock_spec db fid cod "increase" hf hr hp hq hc
  rw [if_neg (by simp), if_pos (by simp)] at hinc
  refine ⟨hinc, fun hge => ?_⟩
  have hdec := update_stock_spec db fid cod "decrease" hf hr hp hq hc
  rw [if_pos (by simp), if_neg (by omega)] at hdec
  rw [hdec]
  -- the store after the decrease
  have hr2 := writeStock_find db hr (cur - q)
  have hc2 : getCol (setCol repuesto "cantidad_disponible" (.int (cur - q)))
      "cantidad_disponible" = some (.int (cur - q)) :=
    getCol_setCol_self repuesto _ hc
  -- maquinas are untouched by the write, so the job-side reads are unchanged
  have hf2 : (writeStock db cod (cur - q)).maquinas.find?
      (fun r => rowIntEq r "item" fid) = some ficha := hf
  have hinc2 := update_stock_spec (writeStock db cod (cur - q)) fid cod
    "increase" hf2 hr2 hp hq hc2
  rw [if_neg (by simp), if_pos (by simp)] at hinc2
  have harith : cur - q + q = cur := by omega
  rw [harith] at hinc2
  refine ⟨rfl, by rw [hinc2], ?_, getCol_setCol_self _ _ hc2⟩
  rw [hinc2]
  exact writeStock_find (writeStock db cod (cur - q)) hr2 cur

/-- Witness for C3: from 0 units of P1 after the recorded 5 were consumed,
an increase with the same job restores 5, and on the 10-unit store a
decrease followed by an increase restores 10. -/
theorem update_stock_increase_inverse_witness :
    update_stock ⟨[rowP1zero], [rowF1]⟩ 1 "P1" "increase" =
      (writeStock ⟨[rowP1zero], [rowF1]⟩ "P1" 5, .ok 5) ∧
    (update_stock (update_stock db0 1 "P1" "decrease").1 1 "P1"
        "increase").2 = .ok 10 :=
  ⟨(@update_stock_increase_inverse ⟨[rowP1zero], [rowF1]⟩ 1 "P1" rowF1
      rowP1zero [("P1", Jv.int 5)] "P1" 5 0 rfl rfl rfl rfl rfl).1,
   ((@update_stock_increase_inverse db0 1 "P1" rowF1 rowP1
      [("P1", Jv.int 5)] "P1" 5 10 rfl rfl rfl rfl rfl).2 (by omega)).2.1⟩

/-- C4: with any action, a missing job row or missing part row yields
`404 "Ficha or Repuesto not found"` with the store unchanged, and when both
exist but the part code is not a key of the deserialized `placed_parts`
object the call yields `400` with the store unchanged. -/
theorem update_stock_absent_cases (db : DB) (fid : Int) (cod act : String) :
    ((db.maquinas.find? (fun r => rowIntEq r "item" fid) = none ∨
      db.repuestos.find? (fun r => rowStrEq r "codigo" cod) = none) →
      update_stock db fid cod act =
        (db, .err 404 "Ficha or Repuesto not found")) ∧
    (∀ ficha repuesto placed,
      db.maquinas.find? (fun r => rowIntEq r "item" fid) = some ficha →
      db.repuestos.find? (fun r => rowStrEq r "codigo" cod) = some repuesto →
      getCol ficha "repuestos_colocados" = some (.obj placed) →
      placed.find? (fun kv => kv.1 == cod) = none →
      update_stock db fid cod act =
        (db, .err 400 "Repuesto not found in repuestos_colocados")) := by
  constructor
  · intro h
    rcases h with h | h
    · cases h2 : db.repuestos.find? (fun r => rowStrEq r "codigo" cod) with
      | none => simp [update_stock, h, h2]
      | some repuesto => simp [update_stock, h, h2]
    · cases h1 : db.maquinas.find? (fun r => rowIntEq r "item" fid) with
      | none => simp [update_stock, h, h1]
      | some ficha => simp [update_stock, h, h1]
  · intro ficha repuesto placed hf hr hp hq
    simp [update_stock, hf, hr, hp, hq]

/-- Witness for C4: on an empty store any call is a 404; on the sample
store, reconciling the part P2 (present in stock but not recorded on job 1)
is a 400, and both leave the store unchanged. -/
theorem update_stock_absent_cases_witness :
    update_stock ⟨[], []⟩ 1 "P1" "decrease" =
      (⟨[], []⟩, .err 404 "Ficha or Repuesto not found") ∧
    update_stock ⟨[rowP2], [rowF1]⟩ 1 "P2" "decrease" =
      (⟨[rowP2], [rowF1]⟩, .err 400 "Repuesto not found in repuestos_colocados") :=
  ⟨(update_stock_absent_cases ⟨[], []⟩ 1 "P1" "decrease").1 (Or.inl rfl),
   (update_stock_absent_cases ⟨[rowP2], [rowF1]⟩ 1 "P2" "decrease").2
     rowF1 rowP2 [("P1", Jv.int 5)] rfl rfl rfl rfl⟩

/-- C5 counterexample: the claim "every successful `update_stock` call
starting from `available_quantity ≥ 0` persists a value ≥ 0, for EVERY
quantity recorded in `placed_parts`" fails on the code.  With part P1 at
stock 0 (≥ 0) and job 1 recording the quantity -5 for P1 (a payload the
API accepts: `Dict[str, int]` admits negative integers), an "increase"
succeeds and persists -5 < 0. -/
theorem update_stock_nonneg_counterexample :
    getCol rowP1zero "cantidad_disponible" = some (.int 0) ∧
    (0 : Int) ≤ 0 ∧
    (update_stock dbNeg 1 "P1" "increase").2 = .ok (-5) ∧
    (update_stock dbNeg 1 "P1" "increase").1.repuestos.find?
        (fun r => rowStrEq r "codigo" "P1") =
      some (setCol rowP1zero "cantidad_disponible" (.int (-5))) ∧
    getCol (setCol rowP1zero "cantidad_disponible" (.int (-5)))
        "cantidad_disponible" = some (.int (-5)) ∧
    (-5 : Int) < 0 :=
  ⟨rfl, by omega, rfl, rfl, rfl, by omega⟩

/-- C5 as amended: for every `update_stock` call that completes successfully
starting from a part whose `available_quantity` is ≥ 0, the persisted
`available_quantity` is ≥ 0 for every NON-NEGATIVE quantity recorded in
`placed_parts` (for a decrease the guard enforces this even without the
hypotheses on the starting stock and the recorded quantity). -/
theorem update_stock_nonneg (db : DB) (fid : Int) (cod act : String)
    {ficha repuesto : Row} {placed : List (String × Jv)} {k : String}
    {q cur v : Int}
    (hf : db.maquinas.find? (fun r => rowIntEq r "item" fid) = some ficha)
    (hr : db.repuestos.find? (fun r => rowStrEq r "codigo" cod) = some repuesto)
    (hp : getCol ficha "repuestos_colocados" = some (.obj placed))
    (hq : placed.find? (fun kv => kv.1 == cod) = some (k, Jv.int q))
    (hc : getCol repuesto "cantidad_disponible" = some (.int cur))
    (hcur : 0 ≤ cur) (hqpos : 0 ≤ q)
    (hok : (update_stock db fid cod act).2 = .ok v) :
    0 ≤ v ∧
    (update_stock db fid cod act).1.repuestos.find?
        (fun r => rowStrEq r "codigo" cod) =
      some (setCol repuesto "cantidad_disponible" (.int v)) ∧
    getCol (setCol repuesto "cantidad_disponible" (.int v))
        "cantidad_disponible" = some (.int v) := by
  have hspec := update_stock_spec db fid cod act hf hr hp hq hc
  by_cases hd : (act == "decrease") = true
  · rw [if_pos hd] at hspec
    by_cases hneg : cur - q < 0
    · rw [if_pos hneg] at hspec
      rw [hspec] at hok
      exact absurd hok (by simp)
    · rw [if_neg hneg] at hspec
      rw [hspec] at hok
      have hv : cur - q = v := by simpa using hok
      subst hv
      exact ⟨by omega, by rw [hspec]; exact writeStock_find db hr _,
        getCol_setCol_self repuesto _ hc⟩
  · rw [if_neg hd] at hspec
    by_cases hi : (act == "increase") = true
    · rw [if_pos hi] at hspec
      rw [hspec] at hok
      have hv : cur + q = v := by simpa using hok
      subst hv
      exact ⟨by omega, by rw [hspec]; exact writeStock_find db hr _,
        getCol_setCol_self repuesto _ hc⟩
    · rw [if_neg hi] at hspec
      rw [hspec] at hok
      exact absurd hok (by simp)

/-- Witness for the amended C5: the sample decrease persists 5 ≥ 0. -/
theorem update_stock_nonneg_witness :
    (0 : Int) ≤ 5 ∧
    (update_stock db0 1 "P1" "decrease").1.repuestos.find?
        (fun r => rowStrEq r "codigo" "P1") =
      some (setCol rowP1 "cantidad_disponible" (.int 5)) ∧
    getCol (setCol rowP1 "cantidad_disponible" (.int 5))
        "cantidad_disponible" = some (.int 5) :=
  @update_stock_nonneg db0 1 "P1" "decrease" rowF1 rowP1
    [("P1", Jv.int 5)] "P1" 5 10 5 rfl rfl rfl rfl rfl (by omega) (by omega) rfl

theorem update_stock_ok_eq (db : DB) (fid : Int) (cod act : String) (v : Int)
    (h : (update_stock db fid cod act).2 = .ok v) :
    update_stock db fid cod act = (writeStock db cod v, .ok v) := by
  revert h
  unfold update_stock
  repeat' split
  all_goals intro h
  all_goals simp_all

/-- C10: a successful `update_stock` call writes only the targeted part's
`cantidad_disponible`: the `maquinas` table (so every job's `placed_parts`
and `missing_parts`) is untouched, no part row is added or removed, every
part row whose `codigo` differs from the targeted code is unchanged, and
even on the targeted rows every column other than `cantidad_disponible`
keeps its value. -/
theorem update_stock_frame (db : DB) (fid : Int) (cod act : String) (v : Int)
    (h : (update_stock db fid cod act).2 = .ok v) :
    (update_stock db fid cod act).1.maquinas = db.maquinas ∧
    (update_stock db fid cod act).1.repuestos.length = db.repuestos.length ∧
    ∀ i : Nat, ∀ r1 : Row, db.repuestos[i]? = some r1 →
      ∃ r2 : Row, (update_stock db fid cod act).1.repuestos[i]? = some r2 ∧
        (rowStrEq r1 "codigo" cod = false → r2 = r1) ∧
        ∀ c : String, c ≠ "cantidad_disponible" → getCol r2 c = getCol r1 c := by
  have he := update_stock_ok_eq db fid cod act v h
  rw [he]
  refine ⟨rfl, List.length_map _ _, ?_⟩
  intro i r1 h1
  refine ⟨if rowStrEq r1 "codigo" cod then
    setCol r1 "cantidad_disponible" (.int v) else r1, ?_, ?_, ?_⟩
  · show (db.repuestos.map fun r => if rowStrEq r "codigo" cod then
      setCol r "cantidad_disponible" (Jv.int v) else r)[i]? = _
    rw [List.getElem?_map, h1]
    rfl
  · intro hfalse
    simp [hfalse]
  · intro c hc
    by_cases hcase : rowStrEq r1 "codigo" cod = true
    · simp only [hcase, if_true]
      exact getCol_setCol_ne r1 _ hc
    · simp only [Bool.not_eq_true] at hcase
      simp [hcase]

/-- Witness for C10: the sample increase succeeds with `new_stock = 15`,
leaves the job table unchanged and preserves the part count. -/
theorem update_stock_frame_witness :
    (update_stock db0 1 "P1" "increase").1.maquinas = db0.maquinas ∧
    (update_stock db0 1 "P1" "increase").1.repuestos.length =
      db0.repuestos.length :=
  ⟨(update_stock_frame db0 1 "P1" "increase" 15 rfl).1,
   (update_stock_frame db0 1 "P1" "increase" 15 rfl).2.1⟩

/-! ### Helper lemmas for the CRUD endpoints -/

theorem filter_all_true {α : Type} (p : α → Bool) (l : List α)
    (h : ∀ a ∈ l, p a = true) : l.filter p = l := by
  induction l with
  | nil => rfl
  | cons a l ih =>
    rw [List.filter_cons_of_pos (h a (List.mem_cons_self a l)),
      ih fun b hb => h b (List.mem_cons_of_mem a hb)]

theorem filter_all_false {α : Type} (p : α → Bool) (l : List α)
    (h : ∀ a ∈ l, p a = false) : l.filter p = [] := by
  induction l with
  | nil => rfl
  | cons a l ih =>
    rw [List.filter_cons_of_neg (by simp [h a (List.mem_cons_self a l)]),
      ih fun b hb => h b (List.mem_cons_of_mem a hb)]

theorem map_ite_id {α : Type} (p : α → Bool) (f : α → α) (l : List α)
    (h : ∀ a ∈ l, p a = false) :
    (l.map fun a => if p a then f a else a) = l := by
  induction l with
  | nil => rfl
  | cons a l ih =>
    rw [List.map_cons, if_neg (by simp [h a (List.mem_cons_self a l)]),
      ih fun b hb => h b (List.mem_cons_of_mem a hb)]

theorem filter_not_self {α : Type} (p : α → Bool) (l : List α)
    (h : ∀ a ∈ l, p a = false) : (l.filter fun a => !p a) = l :=
  filter_all_true _ l fun a ha => by simp [h a ha]

theorem filter_after_remove {α : Type} (p : α → Bool) (l : List α) :
    ((l.filter fun a => !p a).filter p) = [] := by
  refine filter_all_false p _ fun a ha => ?_
  have := List.of_mem_filter ha
  simpa using this

/-! ### Claim theorems: CRUD endpoints -/

/-- C8: when no stored row matches the identifier, a partial update (with a
nonempty, recognized-field payload) and a delete both report
404 — never success — and leave the store unchanged, for both resources;
moreover, for an arbitrary payload the update still never succeeds and
never mutates the store, and a delete repeated after a delete of the same
id always reports 404 the second time. -/
theorem crud_absent_id_not_found (db : DB) (idv : Int)
    (payload payload2 : List (String × Jv))
    (h1 : ∀ r ∈ db.repuestos, rowIntEq r "id" idv = false)
    (h2 : ∀ r ∈ db.maquinas, rowIntEq r "item" idv = false) :
    (payload ≠ [] → (∀ kv ∈ payload, allowed_fields.contains kv.1 = true) →
      backend_update_repuesto db idv payload =
        (db, .err 404 "Repuesto no encontrado")) ∧
    (payload2 ≠ [] →
      (∀ kv ∈ payload2, maquinas_columns.contains kv.1 = true) →
      backend_update_ficha db idv payload2 =
        (db, .err 404 "Ficha no encontrada")) ∧
    backend_delete_repuesto db idv = (db, .err 404 "Repuesto no encontrado") ∧
    backend_delete_ficha db idv = (db, .err 404 "Ficha no encontrada") ∧
    ((backend_update_repuesto db idv payload).1 = db ∧
      ∀ s, (backend_update_repuesto db idv payload).2 ≠ .ok s) ∧
    ((backend_update_ficha db idv payload2).1 = db ∧
      ∀ s, (backend_update_ficha db idv payload2).2 ≠ .ok s) ∧
    (∀ d : DB,
      (backend_delete_repuesto (backend_delete_repuesto d idv).1 idv).2 =
        .err 404 "Repuesto no encontrado") ∧
    (∀ d : DB,
      (backend_delete_ficha (backend_delete_ficha d idv).1 idv).2 =
        .err 404 "Ficha no encontrada") := by
  obtain ⟨rep, maq⟩ := db
  simp only [] at h1 h2
  have hf1 : rep.filter (fun r => rowIntEq r "id" idv) = [] :=
    filter_all_false _ _ h1
  have hf2 : maq.filter (fun r => rowIntEq r "item" idv) = [] :=
    filter_all_false _ _ h2
  have hm1 : ∀ pl, (runUpdate rep "id" idv pl).1 = rep :=
    fun pl => map_ite_id _ _ rep h1
  have hm2 : ∀ pl, (runUpdate maq "item" idv pl).1 = maq :=
    fun pl => map_ite_id _ _ maq h2
  have hc1 : ∀ pl, (runUpdate rep "id" idv pl).2 = 0 := by
    intro pl
    show (rep.filter _).length = 0
    rw [hf1]
    rfl
  have hc2 : ∀ pl, (runUpdate maq "item" idv pl).2 = 0 := by
    intro pl
    show (maq.filter _).length = 0
    rw [hf2]
    rfl
  refine ⟨?_, ?_, ?_, ?_, ?_, ?_, ?_, ?_⟩
  · intro hne hall
    rcases payload with _ | ⟨kv0, rest⟩
    · exact absurd rfl hne
    · unfold backend_update_repuesto
      rw [filter_all_true _ _ hall, if_neg (by simp), if_neg (by simp),
        if_pos (by simp [hc1]), hm1]
  · intro hne hall
    rcases payload2 with _ | ⟨kv0, rest⟩
    · exact absurd rfl hne
    · unfold backend_update_ficha
      rw [if_neg (by simp),
        if_neg (fun hcon =>
          hcon (List.all_eq_true.mpr fun kv hkv => hall kv hkv)),
        if_pos (by simp [hc2]), hm2]
  · unfold backend_delete_repuesto
    rw [if_pos (by simp [hf1]), filter_not_self _ _ h1]
  · unfold backend_delete_ficha
    rw [if_pos (by simp [hf2]), filter_not_self _ _ h2]
  · unfold backend_update_repuesto
    refine ⟨?_, ?_⟩
    · repeat' split
      all_goals simp_all [hm1]
    · intro s
      repeat' split
      all_goals simp_all [hc1]
  · unfold backend_update_ficha
    refine ⟨?_, ?_⟩
    · repeat' split
      all_goals simp_all [hm2]
    · intro s
      repeat' split
      all_goals simp_all [hc2]
  · intro d
    unfold backend_delete_repuesto
    simp [apply_ite, filter_after_remove]
  · intro d
    unfold backend_delete_ficha
    simp [apply_ite, filter_after_remove]

/-- Witness for C8: the sample store has no row with id or item 99, and
both deletes and both (valid, nonempty) updates with that id report 404
and return the store unchanged. -/
theorem crud_absent_id_not_found_witness :
    backend_update_repuesto db8 99 [("codigo", .str "X")] =
      (db8, .err 404 "Repuesto no encontrado") ∧
    backend_update_ficha db8 99 [("cliente", .str "Y")] =
      (db8, .err 404 "Ficha no encontrada") ∧
    backend_delete_repuesto db8 99 = (db8, .err 404 "Repuesto no encontrado") ∧
    backend_delete_ficha db8 99 = (db8, .err 404 "Ficha no encontrada") := by
  have h := crud_absent_id_not_found db8 99 [("codigo", .str "X")]
    [("cliente", .str "Y")] (by decide) (by decide)
  exact ⟨h.1 (by simp) (by decide), h.2.1 (by simp) (by decide),
    h.2.2.1, h.2.2.2.1⟩

/-- C6: the empty-payload behaviour of the two Backend partial-update
handlers on a store whose target row EXISTS (id/item 1).  The Part handler
rejects an empty recognized-field set with 400 before touching the store,
as the claim states; the Repair-Job handler of src/Backend/main.py has no
such check — the empty payload reaches the store as the malformed
statement `UPDATE maquinas SET  WHERE item = %s` and surfaces as a 500
server error, not a 400 client error (the FastAPI variant of the same
handler does perform the 400 check, confirming the intended behaviour). -/
theorem empty_update_divergence :
    backend_update_repuesto db0 1 [] =
      (db0, .err 400 "No valid fields to update") ∧
    backend_update_ficha db0 1 [] =
      (db0, .err 500 "Database error: SQL syntax error") ∧
    fastapi_update_ficha db0 1 [] =
      (db0, .err 400 "No fields to update") :=
  ⟨rfl, rfl, rfl⟩

/-- C7: the Backend Part update on a payload mixing the allowed field
`codigo` with the unknown field `foo`, against a store whose row id 1
exists.  The handler filters the field names but not the values, so the
statement gets three parameters for two placeholders and the call dies as
a 500 store error with no write — the allowed field is NOT updated with
its value, contrary to the claim.  The same payload reduced to its allowed
field alone does update the row, and the Repair-Job handler accepts an
arbitrary field name without an allow-list. -/
theorem mixed_update_divergence :
    backend_update_repuesto db0 1 [("codigo", .str "X"), ("foo", .str "y")] =
      (db0, .err 500 "Database error: parameter count mismatch") ∧
    backend_update_repuesto db0 1 [("foo", .str "y")] =
      (db0, .err 400 "No valid fields to update") ∧
    backend_update_repuesto db0 1 [("codigo", .str "X")] =
      ({ db0 with repuestos := [setCol rowP1 "codigo" (.str "X")] },
       .ok "Repuesto actualizado exitosamente") ∧
    backend_update_ficha db0 1 [("cliente", .str "Z")] =
      ({ db0 with maquinas := [setCol rowF1 "cliente" (.str "Z")] },
       .ok "Ficha actualizada exitosamente") :=
  ⟨rfl, rfl, rfl, rfl⟩

/-- C9: the read path never applies `sanitize_data`.  A stored ficha whose
serialized `repuestos_colocados` carries a NaN is returned by `get_fichas`
with the NaN intact (the deserialized mapping still holds `Jv.nan`),
although the `sanitize_data` defined in both source files — and never
called anywhere in them — would have normalized it to the null
equivalent. -/
theorem get_fichas_emits_nan :
    get_fichas dbNan = [rowNan] ∧
    getCol rowNan "repuestos_colocados" = some (.obj [("P1", Jv.nan)]) ∧
    sanitize_data (.obj [("P1", Jv.nan)]) = .obj [("P1", Jv.null)] :=
  ⟨rfl, rfl, rfl⟩
